import Mathlib

/-!
Shallow embedding of the ACRN hypervisor boot-information subsystem
(`boot.h` / `vboot.h`): the Boot Manifest data model (`acrn_boot_info`,
`abi_module`, `abi_mmap`, `efi_info`), the size constants, and the
operations the interface declares.  Operations whose bodies live in
translation units outside the header surface are modelled from the
specification; `boot_from_uefi` is a `static inline` whose body is in the
header and is translated directly.
-/

/-! ### Size constants (boot.h) -/

/-- Max memory map array size (`MAX_MMAP_ENTRIES`, boot.h). -/
def MAX_MMAP_ENTRIES : Nat := 32

/-- Max command line size in byte (`MAX_BOOTARGS_SIZE`, boot.h). -/
def MAX_BOOTARGS_SIZE : Nat := 2048

/-- Max loader name size in byte (`MAX_LOADER_NAME_SIZE`, boot.h). -/
def MAX_LOADER_NAME_SIZE : Nat := 32

/-- Max protocol name size in byte (`MAX_PROTOCOL_NAME_SIZE`, boot.h). -/
def MAX_PROTOCOL_NAME_SIZE : Nat := 16

/-- Max module name size in byte (`MAX_MOD_STRING_SIZE`, boot.h). -/
def MAX_MOD_STRING_SIZE : Nat := 2048

/-- Max modules ACRN supports (`MAX_MODULE_NUM`, boot.h):
`3U * PRE_VM_NUM + 2U * SERVICE_VM_NUM`.  `PRE_VM_NUM` and
`SERVICE_VM_NUM` come from a configuration header outside the embedded
surface, so the macro is a function of the two VM counts. -/
def MAX_MODULE_NUM (pre_vm_num service_vm_num : Nat) : Nat :=
  3 * pre_vm_num + 2 * service_vm_num

/-! ### Memory map types (boot.h) -/

/-- Available RAM (`MMAP_TYPE_RAM`). -/
def MMAP_TYPE_RAM : Nat := 1

/-- Reserved area (`MMAP_TYPE_RESERVED`). -/
def MMAP_TYPE_RESERVED : Nat := 2

/-- Usable memory holding ACPI information (`MMAP_TYPE_ACPI_RECLAIM`). -/
def MMAP_TYPE_ACPI_RECLAIM : Nat := 3

/-- Reserved memory preserved on hibernation (`MMAP_TYPE_ACPI_NVS`). -/
def MMAP_TYPE_ACPI_NVS : Nat := 4

/-- Memory occupied by defective RAM modules (`MMAP_TYPE_UNUSABLE`). -/
def MMAP_TYPE_UNUSABLE : Nat := 5

/-! ### Error codes (errno, referenced by the header contracts) -/

/-- `EINVAL`: invalid argument. -/
def EINVAL : Int := 22

/-- `ENODEV`: no such device (unsupported multiboot version). -/
def ENODEV : Int := 19

/-- `ENOMEM`: not enough memory space. -/
def ENOMEM : Int := 12

/-- All-ones 64-bit value (`~0UL`), the empty-registry sentinel start. -/
def UINT64_ALL_ONES : Nat := 2 ^ 64 - 1

/-! ### Data model -/

/-- UEFI information (`struct efi_info`, declared in efi.h outside the
embedded surface).  Only the two 32-bit halves of the firmware
system-table address are referenced by the embedded code: `systab` is
the low half, `systab_hi` the high half. -/
structure efi_info where
  systab : Nat
  systab_hi : Nat
deriving DecidableEq, Repr

/-- Module of Acrn Boot Information (`struct abi_module`, boot.h):
start address in HVA, size in byte, and the module name string. -/
structure abi_module where
  start : Nat
  size : Nat
  string : String
deriving DecidableEq, Repr

/-- Memory Map of Acrn Boot Information (`struct abi_mmap`, boot.h). -/
structure abi_mmap where
  baseaddr : Nat
  length : Nat
  type : Nat
deriving DecidableEq, Repr

/-- Acrn Boot Information (`struct acrn_boot_info`, boot.h).  The C
fixed-capacity arrays with explicit counts (`mods_count`/`mods`,
`mmap_entries`/`mmap_entry`) are embedded as lists whose length is the
count; the capacity bounds are the sanitizer's concern.  `acpi_rsdp_va`
is a possibly-null pointer, embedded as an optional address. -/
structure acrn_boot_info where
  protocol_name : String
  cmdline : String
  loader_name : String
  mods : List abi_module
  mmap_entry : List abi_mmap
  acpi_rsdp_va : Option Nat
  uefi_info : efi_info
deriving DecidableEq, Repr

/-- Module count of the manifest (`mods_count` field). -/
def acrn_boot_info.mods_count (abi : acrn_boot_info) : Nat :=
  abi.mods.length

/-- Memory map count of the manifest (`mmap_entries` field). -/
def acrn_boot_info.mmap_entries (abi : acrn_boot_info) : Nat :=
  abi.mmap_entry.length

/-! ### boot_from_uefi (static inline, boot.h lines 105-108) -/

/-- Check if system boot from UEFI (`boot_from_uefi`, boot.h):
`return !((abi->uefi_info.systab == 0U) && (abi->uefi_info.systab_hi == 0U));`. -/
def boot_from_uefi (abi : acrn_boot_info) : Bool :=
  !((abi.uefi_info.systab == 0) && (abi.uefi_info.systab_hi == 0))

/-! ### Concrete manifests used as test inputs -/

/-- A manifest whose system-table halves are (1, 0): low half set,
high half zero. -/
def abiSystabLowOnly : acrn_boot_info :=
  { protocol_name := "Multiboot2"
    cmdline := ""
    loader_name := "GRUB"
    mods := []
    mmap_entry := []
    acpi_rsdp_va := none
    uefi_info := { systab := 1, systab_hi := 0 } }

/-- A manifest whose system-table halves are both zero. -/
def abiSystabZero : acrn_boot_info :=
  { abiSystabLowOnly with uefi_info := { systab := 0, systab_hi := 0 } }

/-- A manifest whose system-table halves are both non-zero. -/
def abiSystabBoth : acrn_boot_info :=
  { abiSystabLowOnly with uefi_info := { systab := 0xdeadb000, systab_hi := 1 } }

/-! ### Claim theorems: boot_from_uefi -/

/-- C1 (counterexample): the claim says `boot_from_uefi` returns true if
and only if BOTH halves of the system-table address are non-zero; at a
manifest with `systab = 1`, `systab_hi = 0` the code returns true while
the both-halves-non-zero condition fails. -/
theorem C1_boot_from_uefi_not_both_counterexample :
    boot_from_uefi abiSystabLowOnly = true ∧
    ¬(abiSystabLowOnly.uefi_info.systab ≠ 0 ∧
      abiSystabLowOnly.uefi_info.systab_hi ≠ 0) := by
  decide

/-- C1 (amended): `boot_from_uefi` returns true if and only if at least
one of the two 32-bit halves of the firmware system-table address
(`uefi_info.systab`, `uefi_info.systab_hi`) is non-zero. -/
theorem C1_boot_from_uefi_iff_some_half_nonzero (abi : acrn_boot_info) :
    boot_from_uefi abi = true ↔
      (abi.uefi_info.systab ≠ 0 ∨ abi.uefi_info.systab_hi ≠ 0) := by
  simp [boot_from_uefi, Decidable.not_and_iff_or_not]

/-- C2: `boot_from_uefi` returns false when both system-table halves are
zero, and returns true when at least one of the two halves is non-zero. -/
theorem C2_boot_from_uefi_cases (abi : acrn_boot_info) :
    (abi.uefi_info.systab = 0 ∧ abi.uefi_info.systab_hi = 0 →
      boot_from_uefi abi = false) ∧
    (abi.uefi_info.systab ≠ 0 ∨ abi.uefi_info.systab_hi ≠ 0 →
      boot_from_uefi abi = true) := by
  constructor
  · intro h
    simp [boot_from_uefi, h.1, h.2]
  · intro h
    rcases h with h | h <;> simp [boot_from_uefi, h]

/-- C2 (witness): the two branches of `C2_boot_from_uefi_cases`
evaluated at concrete manifests. -/
theorem C2_boot_from_uefi_cases_witness :
    boot_from_uefi abiSystabZero = false ∧
    boot_from_uefi abiSystabBoth = true :=
  ⟨(C2_boot_from_uefi_cases abiSystabZero).1 (by decide),
   (C2_boot_from_uefi_cases abiSystabBoth).2 (by decide)⟩

/-! ### get_boot_mods_range (boot.h line 119; body outside the header) -/

/-- Modelled from the spec: the body of `get_boot_mods_range` is not in
the embedded header surface (boot.h only declares it).  Per the spec and
the header contract it scans the Module Registry and returns the lowest
module start address and the highest module end address (start + size);
with zero modules it yields the sentinel `(~0UL, 0)`.  The C function
writes through the out-pointers `p_start`/`p_end`; the embedding returns
the pair. -/
def get_boot_mods_range (mods : List abi_module) : Nat × Nat :=
  mods.foldl
    (fun r m => (min r.1 m.start, max r.2 (m.start + m.size)))
    (UINT64_ALL_ONES, 0)

/-- Over a fold step the first component only decreases and the second
only increases. -/
theorem get_boot_mods_range_fold_mono (mods : List abi_module)
    (s e : Nat) :
    (mods.foldl
      (fun r m => (min r.1 m.start, max r.2 (m.start + m.size)))
      (s, e)).1 ≤ s ∧
    e ≤ (mods.foldl
      (fun r m => (min r.1 m.start, max r.2 (m.start + m.size)))
      (s, e)).2 := by
  induction mods generalizing s e with
  | nil => exact ⟨le_refl s, le_refl e⟩
  | cons m rest ih =>
    simp only [List.foldl_cons]
    exact ⟨le_trans (ih (min s m.start) (max e (m.start + m.size))).1
             (min_le_left s m.start),
           le_trans (le_max_left e (m.start + m.size))
             (ih (min s m.start) (max e (m.start + m.size))).2⟩

/-- The fold's first component is a lower bound of every module start,
and its second an upper bound of every module end. -/
theorem get_boot_mods_range_fold_bounds (mods : List abi_module)
    (s e : Nat) (m : abi_module) (hm : m ∈ mods) :
    (mods.foldl
      (fun r m => (min r.1 m.start, max r.2 (m.start + m.size)))
      (s, e)).1 ≤ m.start ∧
    m.start + m.size ≤ (mods.foldl
      (fun r m => (min r.1 m.start, max r.2 (m.start + m.size)))
      (s, e)).2 := by
  induction mods generalizing s e with
  | nil => cases hm
  | cons hd rest ih =>
    simp only [List.foldl_cons]
    rcases List.mem_cons.mp hm with h | h
    · subst h
      exact ⟨le_trans
          (get_boot_mods_range_fold_mono rest (min s m.start)
            (max e (m.start + m.size))).1 (min_le_right s m.start),
        le_trans (le_max_right e (m.start + m.size))
          (get_boot_mods_range_fold_mono rest (min s m.start)
            (max e (m.start + m.size))).2⟩
    · exact ih (min s hd.start) (max e (hd.start + hd.size)) h

/-- When the initial accumulator values are attained by some module (or
are the initial values themselves), the fold's results are attained. -/
theorem get_boot_mods_range_fold_attained (mods : List abi_module)
    (s e : Nat) :
    ((mods.foldl
        (fun r m => (min r.1 m.start, max r.2 (m.start + m.size)))
        (s, e)).1 = s ∨
      ∃ m ∈ mods, (mods.foldl
        (fun r m => (min r.1 m.start, max r.2 (m.start + m.size)))
        (s, e)).1 = m.start) ∧
    ((mods.foldl
        (fun r m => (min r.1 m.start, max r.2 (m.start + m.size)))
        (s, e)).2 = e ∨
      ∃ m ∈ mods, (mods.foldl
        (fun r m => (min r.1 m.start, max r.2 (m.start + m.size)))
        (s, e)).2 = m.start + m.size) := by
  induction mods generalizing s e with
  | nil => exact ⟨Or.inl rfl, Or.inl rfl⟩
  | cons hd rest ih =>
    simp only [List.foldl_cons]
    obtain ⟨ih1, ih2⟩ := ih (min s hd.start) (max e (hd.start + hd.size))
    constructor
    · rcases ih1 with h | ⟨m, hm, hme⟩
      · rcases min_cases s hd.start with ⟨hmin, _⟩ | ⟨hmin, _⟩
        · exact Or.inl (h.trans hmin)
        · exact Or.inr ⟨hd, List.mem_cons_self hd rest, h.trans hmin⟩
      · exact Or.inr ⟨m, List.mem_cons_of_mem hd hm, hme⟩
    · rcases ih2 with h | ⟨m, hm, hme⟩
      · rcases max_cases e (hd.start + hd.size) with ⟨hmax, _⟩ | ⟨hmax, _⟩
        · exact Or.inl (h.trans hmax)
        · exact Or.inr ⟨hd, List.mem_cons_self hd rest, h.trans hmax⟩
      · exact Or.inr ⟨m, List.mem_cons_of_mem hd hm, hme⟩

/-- C3: with zero modules `get_boot_mods_range` yields the sentinel
`(~0UL, 0)`; with one or more modules (all of whose start addresses fit
in 64 bits, as u64 fields do) it yields the minimum module start as the
range start and the maximum module end (start + size) as the range end;
in particular over modules occupying 0x1000..0x2000 and 0x5000..0x6000
it yields (0x1000, 0x6000). -/
theorem C3_get_boot_mods_range_spec :
    get_boot_mods_range [] = (UINT64_ALL_ONES, 0) ∧
    (∀ mods : List abi_module, mods ≠ [] →
      (∀ m ∈ mods, m.start < 2 ^ 64) →
      ((∃ m ∈ mods, (get_boot_mods_range mods).1 = m.start) ∧
        (∀ m ∈ mods, (get_boot_mods_range mods).1 ≤ m.start) ∧
        (∃ m ∈ mods, (get_boot_mods_range mods).2 = m.start + m.size) ∧
        (∀ m ∈ mods, m.start + m.size ≤ (get_boot_mods_range mods).2))) ∧
    get_boot_mods_range
        [{ start := 0x1000, size := 0x1000, string := "kernel" },
         { start := 0x5000, size := 0x1000, string := "ramdisk" }] =
      (0x1000, 0x6000) := by
  refine ⟨rfl, ?_, by decide⟩
  intro mods hne hlt
  obtain ⟨h1, h2⟩ := get_boot_mods_range_fold_attained mods UINT64_ALL_ONES 0
  refine ⟨?_, fun m hm =>
      (get_boot_mods_range_fold_bounds mods UINT64_ALL_ONES 0 m hm).1, ?_,
    fun m hm =>
      (get_boot_mods_range_fold_bounds mods UINT64_ALL_ONES 0 m hm).2⟩
  · rcases h1 with h | h
    · obtain ⟨m, hm⟩ := List.exists_mem_of_ne_nil mods hne
      have hb := (get_boot_mods_range_fold_bounds mods UINT64_ALL_ONES 0 m hm).1
      rw [get_boot_mods_range] at *
      refine ⟨m, hm, le_antisymm (hb) ?_⟩
      rw [h]
      have := hlt m hm
      simp only [UINT64_ALL_ONES]
      omega
    · exact h
  · rcases h2 with h | h
    · obtain ⟨m, hm⟩ := List.exists_mem_of_ne_nil mods hne
      have hb := (get_boot_mods_range_fold_bounds mods UINT64_ALL_ONES 0 m hm).2
      rw [get_boot_mods_range] at *
      exact ⟨m, hm, le_antisymm (by omega) hb⟩
    · exact h

/-- C3 (witness): the nonempty branch of `C3_get_boot_mods_range_spec`
applied at a concrete one-module registry. -/
theorem C3_get_boot_mods_range_spec_witness :
    (∃ m ∈ [(⟨0x1000, 0x1000, "kernel"⟩ : abi_module)],
      (get_boot_mods_range [⟨0x1000, 0x1000, "kernel"⟩]).1 = m.start) ∧
    (∀ m ∈ [(⟨0x1000, 0x1000, "kernel"⟩ : abi_module)],
      (get_boot_mods_range [⟨0x1000, 0x1000, "kernel"⟩]).1 ≤ m.start) ∧
    (∃ m ∈ [(⟨0x1000, 0x1000, "kernel"⟩ : abi_module)],
      (get_boot_mods_range [⟨0x1000, 0x1000, "kernel"⟩]).2 =
        m.start + m.size) ∧
    (∀ m ∈ [(⟨0x1000, 0x1000, "kernel"⟩ : abi_module)],
      m.start + m.size ≤ (get_boot_mods_range [⟨0x1000, 0x1000, "kernel"⟩]).2) :=
  C3_get_boot_mods_range_spec.2.1 [⟨0x1000, 0x1000, "kernel"⟩]
    (by decide) (by decide)

/-! ### sanitize_acrn_boot_info (boot.h line 143; body outside the header) -/

/-- A memory-map type is one of the five defined `MMAP_TYPE_*` kinds. -/
def mmap_type_valid (t : Nat) : Bool :=
  (t == MMAP_TYPE_RAM) || (t == MMAP_TYPE_RESERVED) ||
  (t == MMAP_TYPE_ACPI_RECLAIM) || (t == MMAP_TYPE_ACPI_NVS) ||
  (t == MMAP_TYPE_UNUSABLE)

/-- Modelled from the spec: the body of `sanitize_acrn_boot_info` is not
in the embedded header surface (boot.h only declares it: 0 on success,
`-EINVAL` when the abi is not valid).  Per the spec it checks every
manifest invariant: module count within `MAX_MODULE_NUM`, every module
size non-zero, memory-map count within `MAX_MMAP_ENTRIES` and non-zero
(non-empty map), every memory-map type one of the five defined kinds,
and every string field terminated within its fixed bound (length
strictly below the capacity, leaving room for the NUL). -/
def sanitize_checks (pre_vm_num service_vm_num : Nat)
    (abi : acrn_boot_info) : Bool :=
  decide (abi.mods_count ≤ MAX_MODULE_NUM pre_vm_num service_vm_num) &&
  abi.mods.all (fun m =>
    decide (m.size ≠ 0) && decide (m.string.length < MAX_MOD_STRING_SIZE)) &&
  decide (abi.mmap_entries ≤ MAX_MMAP_ENTRIES) &&
  decide (abi.mmap_entries ≠ 0) &&
  abi.mmap_entry.all (fun e => mmap_type_valid e.type) &&
  decide (abi.protocol_name.length < MAX_PROTOCOL_NAME_SIZE) &&
  decide (abi.cmdline.length < MAX_BOOTARGS_SIZE) &&
  decide (abi.loader_name.length < MAX_LOADER_NAME_SIZE)

/-- Modelled from the spec: validate acrn boot information, returning 0
when every invariant holds and the generic `-EINVAL` on any violation
(the boot path names no specific field in its failure code). -/
def sanitize_acrn_boot_info (pre_vm_num service_vm_num : Nat)
    (abi : acrn_boot_info) : Int :=
  if sanitize_checks pre_vm_num service_vm_num abi then 0 else -EINVAL

/-- The manifest invariants as a proposition. -/
def abi_invariants (pre_vm_num service_vm_num : Nat)
    (abi : acrn_boot_info) : Prop :=
  abi.mods_count ≤ MAX_MODULE_NUM pre_vm_num service_vm_num ∧
  (∀ m ∈ abi.mods, m.size ≠ 0 ∧ m.string.length < MAX_MOD_STRING_SIZE) ∧
  abi.mmap_entries ≤ MAX_MMAP_ENTRIES ∧
  abi.mmap_entries ≠ 0 ∧
  (∀ e ∈ abi.mmap_entry,
    e.type = MMAP_TYPE_RAM ∨ e.type = MMAP_TYPE_RESERVED ∨
    e.type = MMAP_TYPE_ACPI_RECLAIM ∨ e.type = MMAP_TYPE_ACPI_NVS ∨
    e.type = MMAP_TYPE_UNUSABLE) ∧
  abi.protocol_name.length < MAX_PROTOCOL_NAME_SIZE ∧
  abi.cmdline.length < MAX_BOOTARGS_SIZE ∧
  abi.loader_name.length < MAX_LOADER_NAME_SIZE

/-- The Bool check chain decides exactly the invariant proposition. -/
theorem sanitize_checks_iff (pre_vm_num service_vm_num : Nat)
    (abi : acrn_boot_info) :
    sanitize_checks pre_vm_num service_vm_num abi = true ↔
      abi_invariants pre_vm_num service_vm_num abi := by
  simp only [sanitize_checks, abi_invariants, mmap_type_valid,
    Bool.and_eq_true, List.all_eq_true, decide_eq_true_eq,
    Bool.or_eq_true, beq_iff_eq, and_assoc, or_assoc]

/-- The invariant proposition is decidable, so concrete manifests can be
checked by evaluation. -/
instance (pre_vm_num service_vm_num : Nat) (abi : acrn_boot_info) :
    Decidable (abi_invariants pre_vm_num service_vm_num abi) := by
  unfold abi_invariants
  infer_instance

/-- C4: `sanitize_acrn_boot_info` returns 0 exactly when every manifest
invariant holds (module count within capacity, no zero-size module,
memory-map count within bounds and non-zero, every memory-map type among
the five defined kinds, every string field within its bound), and any
non-zero return is the generic `-EINVAL`. -/
theorem C4_sanitize_acrn_boot_info_spec (pre_vm_num service_vm_num : Nat)
    (abi : acrn_boot_info) :
    (sanitize_acrn_boot_info pre_vm_num service_vm_num abi = 0 ↔
      abi_invariants pre_vm_num service_vm_num abi) ∧
    (sanitize_acrn_boot_info pre_vm_num service_vm_num abi ≠ 0 →
      sanitize_acrn_boot_info pre_vm_num service_vm_num abi = -EINVAL) := by
  constructor
  · rw [← sanitize_checks_iff pre_vm_num service_vm_num abi]
    unfold sanitize_acrn_boot_info
    split
    next h => simp [h]
    next h => simp [h, EINVAL]
  · intro h
    unfold sanitize_acrn_boot_info at h ⊢
    by_cases hc : sanitize_checks pre_vm_num service_vm_num abi = true
    · rw [if_pos hc] at h
      exact absurd rfl h
    · rw [if_neg hc]

/-- A manifest satisfying every invariant: no modules and a single RAM
memory-map entry. -/
def abiValid : acrn_boot_info :=
  { protocol_name := "Multiboot2"
    cmdline := "root=/dev/sda1"
    loader_name := "GRUB"
    mods := []
    mmap_entry := [{ baseaddr := 0, length := 0x80000000, type := 1 }]
    acpi_rsdp_va := none
    uefi_info := { systab := 0, systab_hi := 0 } }

/-- A manifest violating an invariant: its only module has size 0. -/
def abiZeroSizeMod : acrn_boot_info :=
  { abiValid with mods := [{ start := 0x1000, size := 0, string := "kernel" }] }

/-- C4 (witness): the sanitizer accepts the all-invariants-hold manifest
and returns `-EINVAL` on the zero-size-module manifest. -/
theorem C4_sanitize_acrn_boot_info_spec_witness :
    abi_invariants 1 1 abiValid ∧
    sanitize_acrn_boot_info 1 1 abiValid = 0 ∧
    sanitize_acrn_boot_info 1 1 abiZeroSizeMod = -EINVAL :=
  ⟨by decide,
   (C4_sanitize_acrn_boot_info_spec 1 1 abiValid).1.mpr (by decide),
   (C4_sanitize_acrn_boot_info_spec 1 1 abiZeroSizeMod).2 (by decide)⟩

/-- C10: the memory-map capacity of the Boot Manifest is the fixed
constant 32 (a plain constant, taking no VM-count parameters, unlike
`MAX_MODULE_NUM`), and every manifest the sanitizer accepts has
`mmap_entries ≤ MAX_MMAP_ENTRIES`. -/
theorem C10_max_mmap_entries_invariant :
    MAX_MMAP_ENTRIES = 32 ∧
    ∀ pre_vm_num service_vm_num : Nat, ∀ abi : acrn_boot_info,
      sanitize_acrn_boot_info pre_vm_num service_vm_num abi = 0 →
      abi.mmap_entries ≤ MAX_MMAP_ENTRIES := by
  refine ⟨rfl, fun pre_vm_num service_vm_num abi h => ?_⟩
  unfold sanitize_acrn_boot_info at h
  by_cases hc : sanitize_checks pre_vm_num service_vm_num abi = true
  · exact ((sanitize_checks_iff pre_vm_num service_vm_num abi).mp hc).2.2.1
  · rw [if_neg hc] at h
    exact absurd h (by decide)

/-- C10 (witness): the bound instantiated at the valid manifest. -/
theorem C10_max_mmap_entries_invariant_witness :
    abiValid.mmap_entries ≤ MAX_MMAP_ENTRIES :=
  C10_max_mmap_entries_invariant.2 1 1 abiValid (by decide)

/-! ### init_multiboot_info (boot.h line 128; body outside the header) -/

/-- Multiboot 1 bootloader magic (`MULTIBOOT_INFO_MAGIC`, declared in
multiboot_std.h outside the embedded surface). -/
def MULTIBOOT_INFO_MAGIC : Nat := 0x2BADB002

/-- Multiboot 2 bootloader magic (`MULTIBOOT2_INFO_MAGIC`, declared in
multiboot_std.h outside the embedded surface). -/
def MULTIBOOT2_INFO_MAGIC : Nat := 0x36d76289

/-- Modelled from the spec: the body of `init_multiboot_info` is not in
the embedded header surface (boot.h declares it: 0 on success, `-ENODEV`
for an unsupported multiboot version).  Per the spec the Protocol
Decoder dispatches purely on the magic word of the 2-word handoff
`(magic, mbi pointer)`; the per-protocol decoders (whose bodies are also
outside the surface) are abstract parameters.  An unsupported magic
fails with `-ENODEV` and leaves the manifest untouched. -/
def init_multiboot_info
    (multiboot_to_acrn_bi multiboot2_to_acrn_bi :
      Nat → acrn_boot_info → Int × acrn_boot_info)
    (registers : Nat × Nat) (abi : acrn_boot_info) : Int × acrn_boot_info :=
  if registers.1 = MULTIBOOT_INFO_MAGIC then
    multiboot_to_acrn_bi registers.2 abi
  else if registers.1 = MULTIBOOT2_INFO_MAGIC then
    multiboot2_to_acrn_bi registers.2 abi
  else
    (-ENODEV, abi)

/-- C5: for every handoff pair whose magic matches no supported boot
protocol, `init_multiboot_info` returns `-ENODEV` and returns the
manifest exactly as given — no field is mutated before the failure. -/
theorem C5_init_multiboot_info_unsupported (mb1 mb2 :
      Nat → acrn_boot_info → Int × acrn_boot_info)
    (registers : Nat × Nat) (abi : acrn_boot_info)
    (h1 : registers.1 ≠ MULTIBOOT_INFO_MAGIC)
    (h2 : registers.1 ≠ MULTIBOOT2_INFO_MAGIC) :
    (init_multiboot_info mb1 mb2 registers abi).1 = -ENODEV ∧
    (init_multiboot_info mb1 mb2 registers abi).2 = abi := by
  unfold init_multiboot_info
  rw [if_neg h1, if_neg h2]
  exact ⟨rfl, rfl⟩

/-- C5 (witness): an unsupported magic (0x12345678) with decoders that
would mutate the manifest still yields `-ENODEV` and the unchanged
manifest. -/
theorem C5_init_multiboot_info_unsupported_witness :
    (init_multiboot_info
        (fun _ a => (0, { a with protocol_name := "Multiboot" }))
        (fun _ a => (0, { a with protocol_name := "Multiboot2" }))
        (0x12345678, 0x9500) abiValid).1 = -ENODEV ∧
    (init_multiboot_info
        (fun _ a => (0, { a with protocol_name := "Multiboot" }))
        (fun _ a => (0, { a with protocol_name := "Multiboot2" }))
        (0x12345678, 0x9500) abiValid).2 = abiValid :=
  C5_init_multiboot_info_unsupported
    (fun _ a => (0, { a with protocol_name := "Multiboot" }))
    (fun _ a => (0, { a with protocol_name := "Multiboot2" }))
    (0x12345678, 0x9500) abiValid (by decide) (by decide)

/-! ### Module registration capacity during decode (C6) -/

/-- Modelled from the spec: the per-protocol decode loops that register
incoming modules are outside the embedded surface; per the spec an
incoming module is appended to the registry while the count is below
`MAX_MODULE_NUM`, and a module arriving beyond capacity is a decode
error (`-EINVAL`), not silently dropped. -/
def abi_register_module (pre_vm_num service_vm_num : Nat)
    (abi : acrn_boot_info) (m : abi_module) : Except Int acrn_boot_info :=
  if abi.mods_count < MAX_MODULE_NUM pre_vm_num service_vm_num then
    Except.ok { abi with mods := abi.mods ++ [m] }
  else
    Except.error (-EINVAL)

/-- C6: the module capacity equals 3 times the pre-launched VM count
plus 2 times the service VM count, and during decode a module arriving
at or beyond capacity is a decode error while a module within capacity
is appended (never dropped). -/
theorem C6_max_module_num_capacity :
    (∀ pre_vm_num service_vm_num : Nat,
      MAX_MODULE_NUM pre_vm_num service_vm_num =
        3 * pre_vm_num + 2 * service_vm_num) ∧
    (∀ pre_vm_num service_vm_num : Nat, ∀ abi : acrn_boot_info,
      ∀ m : abi_module,
      MAX_MODULE_NUM pre_vm_num service_vm_num ≤ abi.mods_count →
      abi_register_module pre_vm_num service_vm_num abi m =
        Except.error (-EINVAL)) ∧
    (∀ pre_vm_num service_vm_num : Nat, ∀ abi : acrn_boot_info,
      ∀ m : abi_module,
      abi.mods_count < MAX_MODULE_NUM pre_vm_num service_vm_num →
      abi_register_module pre_vm_num service_vm_num abi m =
        Except.ok { abi with mods := abi.mods ++ [m] }) := by
  refine ⟨fun _ _ => rfl, ?_, ?_⟩
  · intro pre_vm_num service_vm_num abi m h
    unfold abi_register_module
    rw [if_neg (by omega)]
  · intro pre_vm_num service_vm_num abi m h
    unfold abi_register_module
    rw [if_pos h]

/-- A registry already holding the five modules a 1-pre-launched-VM,
1-service-VM platform allows. -/
def abiFullMods : acrn_boot_info :=
  { abiValid with mods :=
      [{ start := 0x1000, size := 1, string := "m0" },
       { start := 0x2000, size := 1, string := "m1" },
       { start := 0x3000, size := 1, string := "m2" },
       { start := 0x4000, size := 1, string := "m3" },
       { start := 0x5000, size := 1, string := "m4" }] }

/-- C6 (witness): with one pre-launched and one service VM the capacity
is 5; registering a sixth module errs with `-EINVAL`, and registering
into the empty registry appends. -/
theorem C6_max_module_num_capacity_witness :
    abi_register_module 1 1 abiFullMods
        { start := 0x6000, size := 1, string := "m5" } =
      Except.error (-EINVAL) ∧
    abi_register_module 1 1 abiValid
        { start := 0x6000, size := 1, string := "m5" } =
      Except.ok { abiValid with mods :=
        [{ start := 0x6000, size := 1, string := "m5" }] } :=
  ⟨C6_max_module_num_capacity.2.1 1 1 abiFullMods
      { start := 0x6000, size := 1, string := "m5" } (by decide),
   C6_max_module_num_capacity.2.2 1 1 abiValid
      { start := 0x6000, size := 1, string := "m5" } (by decide)⟩

/-! ### get_mod_by_tag (boot.h line 156; body outside the header) -/

/-- Modelled from the spec: the body of `get_mod_by_tag` is not in the
embedded header surface (boot.h declares it: pointer to module if found,
NULL otherwise; pre abi != NULL && tag != NULL).  Per the spec it is a
linear search over the Module Registry returning the first descriptor
whose tag matches the requested tag (the spec leaves exact-vs-prefix
matching open; the embedding uses exact string match, under which the
spec's concrete examples are decided identically).  The C NULL result is
`none`. -/
def get_mod_by_tag (abi : acrn_boot_info) (tag : String) : Option abi_module :=
  abi.mods.find? (fun m => m.string == tag)

/-- A three-module registry with tags kernel, ramdisk, acpi. -/
def abiThreeMods : acrn_boot_info :=
  { abiValid with mods :=
      [{ start := 0x100000, size := 0x800000, string := "kernel" },
       { start := 0x900000, size := 0x400000, string := "ramdisk" },
       { start := 0xd00000, size := 0x100000, string := "acpi" }] }

/-- C7: `get_mod_by_tag` returns the first descriptor in registry order
whose tag equals the requested tag, and `none` when no descriptor
matches; any returned descriptor is in the registry and carries the
requested tag; over the registry with tags kernel/ramdisk/acpi it finds
the kernel descriptor and returns `none` for a bogus tag. -/
theorem C7_get_mod_by_tag_spec :
    (∀ (abi : acrn_boot_info) (tag : String)
        (l₁ l₂ : List abi_module) (m : abi_module),
      abi.mods = l₁ ++ m :: l₂ → m.string = tag →
      (∀ m' ∈ l₁, m'.string ≠ tag) →
      get_mod_by_tag abi tag = some m) ∧
    (∀ (abi : acrn_boot_info) (tag : String),
      (∀ m ∈ abi.mods, m.string ≠ tag) →
      get_mod_by_tag abi tag = none) ∧
    (∀ (abi : acrn_boot_info) (tag : String) (m : abi_module),
      get_mod_by_tag abi tag = some m →
      m ∈ abi.mods ∧ m.string = tag) ∧
    get_mod_by_tag abiThreeMods "kernel" =
      some { start := 0x100000, size := 0x800000, string := "kernel" } ∧
    get_mod_by_tag abiThreeMods "bogus" = none := by
  refine ⟨?_, ?_, ?_, by decide, by decide⟩
  · intro abi tag l₁ l₂ m hmods hm hfirst
    unfold get_mod_by_tag
    rw [hmods]
    clear hmods
    induction l₁ with
    | nil =>
      exact List.find?_cons_of_pos _ (by simp [hm])
    | cons hd tl ih =>
      rw [List.cons_append,
        List.find?_cons_of_neg _
          (by simp [hfirst hd (List.mem_cons_self hd tl)])]
      exact ih (fun m' hm' => hfirst m' (List.mem_cons_of_mem hd hm'))
  · intro abi tag hnone
    unfold get_mod_by_tag
    rw [List.find?_eq_none]
    intro m hm
    simp [hnone m hm]
  · intro abi tag m hfind
    exact ⟨List.mem_of_find?_eq_some hfind,
      by simpa using List.find?_some hfind⟩

/-- C7 (witness): the three general branches of `C7_get_mod_by_tag_spec`
applied at the concrete three-module registry. -/
theorem C7_get_mod_by_tag_spec_witness :
    get_mod_by_tag abiThreeMods "ramdisk" =
      some { start := 0x900000, size := 0x400000, string := "ramdisk" } ∧
    get_mod_by_tag abiThreeMods "initrd" = none ∧
    ({ start := 0x900000, size := 0x400000, string := "ramdisk" } :
        abi_module) ∈ abiThreeMods.mods :=
  ⟨C7_get_mod_by_tag_spec.1 abiThreeMods "ramdisk"
      [{ start := 0x100000, size := 0x800000, string := "kernel" }]
      [{ start := 0xd00000, size := 0x100000, string := "acpi" }]
      { start := 0x900000, size := 0x400000, string := "ramdisk" }
      (by decide) (by decide) (by decide),
   C7_get_mod_by_tag_spec.2.1 abiThreeMods "initrd" (by decide),
   (C7_get_mod_by_tag_spec.2.2.1 abiThreeMods "ramdisk"
      { start := 0x900000, size := 0x400000, string := "ramdisk" }
      (by decide)).1⟩

/-! ### Per-VM boot context (vboot.h; bodies outside the header) -/

/-- Modelled from the spec: the per-VM boot context (`struct acrn_vm`
together with its static configuration, defined by the VM subsystem
outside the embedded surface).  Only the fields this core reads and
writes are embedded: the configured guest kernel format, the fixed
guest-physical kernel load base, the size of the region the VM's
configuration reserves for the kernel image, the kernel module located
for this VM (descriptor and its bytes), and the loaded image the loaders
record (guest-physical address with the copied bytes). -/
structure acrn_vm where
  kernel_type : Nat
  kernel_load_addr : Nat
  kernel_region_size : Nat
  kernel_mod : abi_module
  kernel_content : List Nat
  loaded_image : Option (Nat × List Nat)
deriving DecidableEq, Repr

/-- Modelled from the spec: the body of `rawimage_loader` is not in the
embedded header surface (vboot.h only declares it).  Per the spec the
raw-image variant copies the kernel module verbatim to the fixed
guest-physical base with no header interpretation, and fails only on
size-versus-capacity violations, with the out-of-guest-memory error
`-ENOMEM` (the code the bzimage contract in vboot.h documents for a
payload that does not fit). -/
def rawimage_loader (vm : acrn_vm) : Int × acrn_vm :=
  if vm.kernel_mod.size ≤ vm.kernel_region_size then
    (0, { vm with
      loaded_image := some (vm.kernel_load_addr, vm.kernel_content) })
  else
    (-ENOMEM, vm)

/-- C9: `rawimage_loader` succeeds on a kernel module whose size equals
the reserved region, recording the module bytes verbatim at the fixed
load base; it fails with `-ENOMEM` when the size exceeds the region by
one byte; and any failure at all implies the size exceeded the region
(size-versus-capacity is the only failure cause) with `-ENOMEM` as the
error and no write to the VM. -/
theorem C9_rawimage_loader_spec (vm : acrn_vm) :
    (vm.kernel_mod.size = vm.kernel_region_size →
      (rawimage_loader vm).1 = 0 ∧
      (rawimage_loader vm).2.loaded_image =
        some (vm.kernel_load_addr, vm.kernel_content)) ∧
    (vm.kernel_mod.size = vm.kernel_region_size + 1 →
      (rawimage_loader vm).1 = -ENOMEM ∧
      (rawimage_loader vm).2 = vm) ∧
    ((rawimage_loader vm).1 ≠ 0 →
      vm.kernel_region_size < vm.kernel_mod.size ∧
      (rawimage_loader vm).1 = -ENOMEM) := by
  refine ⟨?_, ?_, ?_⟩
  · intro h
    unfold rawimage_loader
    rw [if_pos (le_of_eq h)]
    exact ⟨rfl, rfl⟩
  · intro h
    unfold rawimage_loader
    rw [if_neg (by omega)]
    exact ⟨rfl, rfl⟩
  · intro h
    unfold rawimage_loader at h ⊢
    by_cases hle : vm.kernel_mod.size ≤ vm.kernel_region_size
    · rw [if_pos hle] at h
      exact absurd rfl h
    · rw [if_neg hle]
      exact ⟨by omega, rfl⟩

/-- A VM whose kernel module exactly fills its reserved region. -/
def vmExactFit : acrn_vm :=
  { kernel_type := 0
    kernel_load_addr := 0x1000000
    kernel_region_size := 4
    kernel_mod := { start := 0x100000, size := 4, string := "kernel" }
    kernel_content := [0x7f, 0x45, 0x4c, 0x46]
    loaded_image := none }

/-- The same VM with a kernel module one byte larger than the region. -/
def vmOneOver : acrn_vm :=
  { vmExactFit with
    kernel_mod := { start := 0x100000, size := 5, string := "kernel" } }

/-- C9 (witness): the three branches of `C9_rawimage_loader_spec` at the
exact-fit and one-byte-over VMs. -/
theorem C9_rawimage_loader_spec_witness :
    ((rawimage_loader vmExactFit).1 = 0 ∧
      (rawimage_loader vmExactFit).2.loaded_image =
        some (0x1000000, [0x7f, 0x45, 0x4c, 0x46])) ∧
    (rawimage_loader vmOneOver).1 = -ENOMEM ∧
    vmOneOver.kernel_region_size < vmOneOver.kernel_mod.size :=
  ⟨(C9_rawimage_loader_spec vmExactFit).1 (by decide),
   ((C9_rawimage_loader_spec vmOneOver).2.1 (by decide)).1,
   ((C9_rawimage_loader_spec vmOneOver).2.2 (by decide)).1⟩

/-! ### init_vm_boot_info (vboot.h line 20; body outside the header) -/

/-- Modelled from the spec: sequential execution of the per-VM loading
sub-steps.  Each sub-step transforms the VM and yields a status; the
sequence stops at the first sub-step returning a non-zero status and
yields that status with the VM state at that point, never applying the
remaining sub-steps. -/
def run_boot_steps (steps : List (acrn_vm → Int × acrn_vm))
    (vm : acrn_vm) : Int × acrn_vm :=
  match steps with
  | [] => (0, vm)
  | f :: rest =>
    let r := f vm
    if r.1 = 0 then run_boot_steps rest r.2 else r

/-- Modelled from the spec: the body of `init_vm_boot_info` is not in
the embedded header surface (vboot.h declares it: 0 on success,
`-EINVAL` on invalid parameters).  Per the spec it selects the Guest
Image Loader variant matching the VM's configured kernel format, invokes
it, then invokes the Software Module Loader for each auxiliary module
class the configuration declares, propagating the first failure.  The
per-format loader table and the auxiliary sub-steps are abstract
parameters (their bodies are outside the surface); the C NULL VM pointer
is `none`.  A null VM or an unrecognized kernel format is `-EINVAL`. -/
def init_vm_boot_info
    (kernel_loaders : Nat → Option (acrn_vm → Int × acrn_vm))
    (aux_steps : List (acrn_vm → Int × acrn_vm))
    (vm : Option acrn_vm) : Int × Option acrn_vm :=
  match vm with
  | none => (-EINVAL, none)
  | some v =>
    match kernel_loaders v.kernel_type with
    | none => (-EINVAL, some v)
    | some loader =>
      let r := run_boot_steps (loader :: aux_steps) v
      (r.1, some r.2)

/-- Every sub-step in the list returns status 0 when run in sequence
from the first state, the sequence ending at the second state. -/
def steps_succeed : List (acrn_vm → Int × acrn_vm) → acrn_vm → acrn_vm → Prop
  | [], vm, vm' => vm' = vm
  | f :: rest, vm, vm' => (f vm).1 = 0 ∧ steps_succeed rest (f vm).2 vm'

/-- Running a succeeding prefix of sub-steps threads the state through
it and continues with the remaining sub-steps from the reached state. -/
theorem run_boot_steps_of_succeed
    (done more : List (acrn_vm → Int × acrn_vm)) (vm vmMid : acrn_vm)
    (h : steps_succeed done vm vmMid) :
    run_boot_steps (done ++ more) vm = run_boot_steps more vmMid := by
  induction done generalizing vm with
  | nil =>
    simp only [steps_succeed] at h
    rw [List.nil_append, h]
  | cons g tl ih =>
    simp only [steps_succeed] at h
    obtain ⟨h0, hrest⟩ := h
    simp only [List.cons_append, run_boot_steps]
    rw [if_pos h0]
    exact ih (g vm).2 hrest

/-- A sub-step failing at the head of the list stops the run there: its
status and state are the result, whatever the remaining sub-steps. -/
theorem run_boot_steps_failure (f : acrn_vm → Int × acrn_vm)
    (rest : List (acrn_vm → Int × acrn_vm)) (vm v' : acrn_vm) (e : Int)
    (hf : f vm = (e, v')) (he : e ≠ 0) :
    run_boot_steps (f :: rest) vm = (e, v') := by
  simp only [run_boot_steps]
  rw [hf]
  simp [he]

/-- When every sub-step succeeds, the run returns 0 with the final
state. -/
theorem run_boot_steps_succeed_eq (steps : List (acrn_vm → Int × acrn_vm))
    (vm v' : acrn_vm) (h : steps_succeed steps vm v') :
    run_boot_steps steps vm = (0, v') := by
  induction steps generalizing vm with
  | nil =>
    simp only [steps_succeed] at h
    simp [run_boot_steps, h]
  | cons g tl ih =>
    simp only [steps_succeed] at h
    obtain ⟨h0, hrest⟩ := h
    simp only [run_boot_steps]
    rw [if_pos h0]
    exact ih (g vm).2 hrest

/-- With a recognized kernel format, `init_vm_boot_info` runs the
matching loader followed by the declared auxiliary sub-steps, in that
order, and returns the run's status and final state. -/
theorem init_vm_boot_info_run
    (kernel_loaders : Nat → Option (acrn_vm → Int × acrn_vm))
    (aux_steps : List (acrn_vm → Int × acrn_vm))
    (loader : acrn_vm → Int × acrn_vm) (v : acrn_vm)
    (hloader : kernel_loaders v.kernel_type = some loader) :
    init_vm_boot_info kernel_loaders aux_steps (some v) =
      ((run_boot_steps (loader :: aux_steps) v).1,
       some (run_boot_steps (loader :: aux_steps) v).2) := by
  simp only [init_vm_boot_info]
  rw [hloader]

/-- C8: `init_vm_boot_info` returns `-EINVAL` on a null VM and on a VM
whose configured kernel format matches no loader variant; with a
recognized format it invokes the matching kernel loader and then the
declared auxiliary sub-steps in sequence; whichever sub-step fails
first — the kernel loader or any auxiliary sub-step — its error and the
VM state at that point are the result, identical for every list of
remaining sub-steps, so those are never attempted; and when every
sub-step succeeds the result is 0 with the final state. -/
theorem C8_init_vm_boot_info_spec :
    (∀ (kernel_loaders : Nat → Option (acrn_vm → Int × acrn_vm))
        (aux_steps : List (acrn_vm → Int × acrn_vm)),
      init_vm_boot_info kernel_loaders aux_steps none = (-EINVAL, none)) ∧
    (∀ (kernel_loaders : Nat → Option (acrn_vm → Int × acrn_vm))
        (aux_steps : List (acrn_vm → Int × acrn_vm)) (v : acrn_vm),
      kernel_loaders v.kernel_type = none →
      init_vm_boot_info kernel_loaders aux_steps (some v) =
        (-EINVAL, some v)) ∧
    (∀ (kernel_loaders : Nat → Option (acrn_vm → Int × acrn_vm))
        (aux_steps : List (acrn_vm → Int × acrn_vm))
        (loader : acrn_vm → Int × acrn_vm) (v : acrn_vm),
      kernel_loaders v.kernel_type = some loader →
      init_vm_boot_info kernel_loaders aux_steps (some v) =
        ((run_boot_steps (loader :: aux_steps) v).1,
         some (run_boot_steps (loader :: aux_steps) v).2)) ∧
    (∀ (kernel_loaders : Nat → Option (acrn_vm → Int × acrn_vm))
        (aux_steps : List (acrn_vm → Int × acrn_vm))
        (loader : acrn_vm → Int × acrn_vm) (v : acrn_vm),
      kernel_loaders v.kernel_type = some loader →
      ∀ (done rest : List (acrn_vm → Int × acrn_vm))
        (f : acrn_vm → Int × acrn_vm) (vmMid v' : acrn_vm) (e : Int),
        loader :: aux_steps = done ++ f :: rest →
        steps_succeed done v vmMid →
        f vmMid = (e, v') → e ≠ 0 →
        init_vm_boot_info kernel_loaders aux_steps (some v) =
          (e, some v')) ∧
    (∀ (kernel_loaders : Nat → Option (acrn_vm → Int × acrn_vm))
        (aux_steps : List (acrn_vm → Int × acrn_vm))
        (loader : acrn_vm → Int × acrn_vm) (v v' : acrn_vm),
      kernel_loaders v.kernel_type = some loader →
      steps_succeed (loader :: aux_steps) v v' →
      init_vm_boot_info kernel_loaders aux_steps (some v) =
        (0, some v')) := by
  refine ⟨fun _ _ => rfl, ?_, ?_, ?_, ?_⟩
  · intro kernel_loaders aux_steps v h
    simp only [init_vm_boot_info]
    rw [h]
  · intro kernel_loaders aux_steps loader v hloader
    exact init_vm_boot_info_run kernel_loaders aux_steps loader v hloader
  · intro kernel_loaders aux_steps loader v hloader
    intro done rest f vmMid v' e hdecomp hsucc hf he
    rw [init_vm_boot_info_run kernel_loaders aux_steps loader v hloader,
      hdecomp,
      run_boot_steps_of_succeed done (f :: rest) v vmMid hsucc,
      run_boot_steps_failure f rest vmMid v' e hf he]
  · intro kernel_loaders aux_steps loader v v' hloader hsucc
    rw [init_vm_boot_info_run kernel_loaders aux_steps loader v hloader,
      run_boot_steps_succeed_eq (loader :: aux_steps) v v' hsucc]

/-- A loader table recognizing only kernel format 0, whose loader fails
with `-ENOMEM`. -/
def failingLoaders : Nat → Option (acrn_vm → Int × acrn_vm) :=
  fun t => if t = 0 then some (fun v => (-ENOMEM, v)) else none

/-- A kernel loader that succeeds and records the loaded image. -/
def okLoader : acrn_vm → Int × acrn_vm :=
  fun v =>
    (0, { v with
      loaded_image := some (v.kernel_load_addr, v.kernel_content) })

/-- A loader table recognizing only kernel format 0 with the succeeding
loader. -/
def okLoaders : Nat → Option (acrn_vm → Int × acrn_vm) :=
  fun t => if t = 0 then some okLoader else none

/-- An auxiliary sub-step failing with `-ENOMEM`. -/
def failAuxStep : acrn_vm → Int × acrn_vm :=
  fun v => (-ENOMEM, v)

/-- An auxiliary sub-step that would clear the loaded image if it ran. -/
def clobberStep : acrn_vm → Int × acrn_vm :=
  fun v => (0, { v with loaded_image := none })

/-- A VM configured with the unrecognized kernel format 7. -/
def vmBadFormat : acrn_vm := { vmExactFit with kernel_type := 7 }

/-- The exact-fit VM after the succeeding kernel loader ran. -/
def vmExactFitLoaded : acrn_vm :=
  { vmExactFit with
    loaded_image :=
      some (vmExactFit.kernel_load_addr, vmExactFit.kernel_content) }

/-- C8 (witness): the branches of `C8_init_vm_boot_info_spec` at
concrete loader tables and VMs — null VM, unrecognized format, the
kernel loader failing with an auxiliary sub-step declared, an auxiliary
sub-step failing after a succeeding kernel loader with a later sub-step
declared (whose effect is absent from the result), and full success
through a declared auxiliary sub-step. -/
theorem C8_init_vm_boot_info_spec_witness :
    init_vm_boot_info failingLoaders [clobberStep] none = (-EINVAL, none) ∧
    init_vm_boot_info failingLoaders [clobberStep] (some vmBadFormat) =
      (-EINVAL, some vmBadFormat) ∧
    init_vm_boot_info failingLoaders [clobberStep] (some vmExactFit) =
      (-ENOMEM, some vmExactFit) ∧
    init_vm_boot_info okLoaders [failAuxStep, clobberStep]
        (some vmExactFit) = (-ENOMEM, some vmExactFitLoaded) ∧
    init_vm_boot_info okLoaders [clobberStep] (some vmExactFit) =
      (0, some { vmExactFitLoaded with loaded_image := none }) :=
  ⟨C8_init_vm_boot_info_spec.1 failingLoaders [clobberStep],
   C8_init_vm_boot_info_spec.2.1 failingLoaders [clobberStep] vmBadFormat
     rfl,
   C8_init_vm_boot_info_spec.2.2.2.1 failingLoaders [clobberStep]
     (fun v => (-ENOMEM, v)) vmExactFit rfl
     [] [clobberStep] (fun v => (-ENOMEM, v)) vmExactFit vmExactFit
     (-ENOMEM) rfl rfl rfl (by decide),
   C8_init_vm_boot_info_spec.2.2.2.1 okLoaders [failAuxStep, clobberStep]
     okLoader vmExactFit rfl
     [okLoader] [clobberStep] failAuxStep vmExactFitLoaded
     vmExactFitLoaded (-ENOMEM) rfl ⟨rfl, rfl⟩ rfl (by decide),
   C8_init_vm_boot_info_spec.2.2.2.2 okLoaders [clobberStep] okLoader
     vmExactFit { vmExactFitLoaded with loaded_image := none } rfl
     ⟨rfl, rfl, rfl⟩⟩
